import Mathlib

/-!
Verification of the SAUCE metadata codec (`sauce/__init__.py`).

Shallow embedding conventions:
* Python `bytes` values are modelled as `List Nat` (one entry per byte).
  The library decodes text with latin-1, which maps byte `b` to code point
  `b`; we therefore keep decoded text as the same byte list.
* `struct.pack`/`struct.unpack` are modelled for the format codes that the
  template uses (`5s 2s 35s 20s 20s 8s I B H 22c`), with little-endian
  unsigned integers.  `struct.error` (raised on an out-of-range integer or a
  mismatched argument) is modelled as `Option.none`.
* The mutable attribute `self.record : Optional[bytes]` is passed explicitly;
  `_puts` returns the new attribute value together with a success flag, so
  that the state left behind by a raising call is visible.
-/

set_option maxRecDepth 8192

namespace Sauce

/-- Equality of `Except` values is decidable when it is on both sides;
needed so that concrete lookup results can be settled by `decide`. -/
instance exceptDecEq {ε α : Type} [DecidableEq ε] [DecidableEq α] :
    DecidableEq (Except ε α) := fun a b =>
  match a, b with
  | .ok x, .ok y => decidable_of_iff (x = y) (by simp)
  | .ok _, .error _ => isFalse (fun h => by cases h)
  | .error _, .ok _ => isFalse (fun h => by cases h)
  | .error e, .error f => decidable_of_iff (e = f) (by simp)

/-- Format codes appearing in `SAUCE.template` (`'5s'`, `'B'`, `'H'`, `'I'`,
`'22c'`). -/
inductive SType where
  | s (n : Nat)
  | B
  | H
  | I
  | c (n : Nat)
deriving DecidableEq

/-- One row of `SAUCE.template`: name, default value, size, struct type.
For `'s'`/`'c'` rows the default is the raw byte string; for the numeric rows
the Python default is the one-element list `[0]`, kept here as `[0]` too. -/
structure TEntry where
  name : String
  dflt : List Nat
  size : Nat
  stype : SType
deriving DecidableEq

/-- `SAUCE.template` from the source, row for row.  `[83,65,85,67,69]` is
b"SAUCE" and `[48,48]` is b"00". -/
def template : List TEntry := [
  ⟨("SAUCE"),        [83, 65, 85, 67, 69], 5,  .s 5⟩,
  ⟨("SAUCEVersion"), [48, 48],             2,  .s 2⟩,
  ⟨("Title"),        List.replicate 35 0,  35, .s 35⟩,
  ⟨("Author"),       List.replicate 20 0,  20, .s 20⟩,
  ⟨("Group"),        List.replicate 20 0,  20, .s 20⟩,
  ⟨("Date"),         List.replicate 8 0,   8,  .s 8⟩,
  ⟨("FileSize"),     [0],                  4,  .I⟩,
  ⟨("DataType"),     [0],                  1,  .B⟩,
  ⟨("FileType"),     [0],                  1,  .B⟩,
  ⟨("TInfo1"),       [0],                  2,  .H⟩,
  ⟨("TInfo2"),       [0],                  2,  .H⟩,
  ⟨("TInfo3"),       [0],                  2,  .H⟩,
  ⟨("TInfo4"),       [0],                  2,  .H⟩,
  ⟨("Comments"),     [0],                  1,  .B⟩,
  ⟨("Flags"),        [0],                  1,  .B⟩,
  ⟨("Filler"),       List.replicate 22 0,  22, .c 22⟩ ]

/-- An argument passed to `struct.pack`: either a byte string (for the
`'s'` formats) or an integer (for `'B'`, `'H'`, `'I'`). -/
inductive FieldVal where
  | bytes (bs : List Nat)
  | nat (n : Nat)
deriving DecidableEq

/-- `struct.pack('<n>s', bs)`: truncate to `n` bytes and null-pad on the
right up to exactly `n` bytes. -/
def packS (n : Nat) (bs : List Nat) : List Nat :=
  bs.take n ++ List.replicate (n - bs.length) 0

/-- Little-endian encoding of `v` into `w` bytes. -/
def packLE (w : Nat) (v : Nat) : List Nat :=
  (List.range w).map (fun i => v / 256 ^ i % 256)

/-- `struct.pack` for the format codes of the template.  `none` models
`struct.error`: an integer outside the range of the field width, or an
argument of the wrong kind (including any single argument for `'22c'`,
which expects 22 separate one-byte arguments). -/
def structPack : SType → FieldVal → Option (List Nat)
  | .s n, .bytes bs => some (packS n bs)
  | .B, .nat v => if v < 256 then some [v] else none
  | .H, .nat v => if v < 65536 then some (packLE 2 v) else none
  | .I, .nat v => if v < 4294967296 then some (packLE 4 v) else none
  | _, _ => none

/-- Byte width of a format code. -/
def stypeSize : SType → Nat
  | .s n => n
  | .B => 1
  | .H => 2
  | .I => 4
  | .c n => n

/-- `SAUCE._template(key)`: walk the template accumulating the offset
(`offset = sum of the sizes of the preceding rows`); `none` models the
`ValueError` from `self.templates.index(key)` when the name is unknown. -/
def templateLookup : List TEntry → Nat → String → Option (TEntry × Nat)
  | [], _, _ => none
  | e :: es, off, key =>
      if e.name = key then some (e, off) else templateLookup es (off + e.size) key

/-- The `struct.pack` call done for one row of `template[1:]` inside
`SAUCE.sauce()`: string rows pack their byte-string default, `'22c'` packs
the 22 single null bytes, numeric rows pack the integer `0` stored in the
one-element default list. -/
def packDefault (e : TEntry) : List Nat :=
  match e.stype with
  | .s n => packS n e.dflt
  | .c _ => e.dflt
  | st => (structPack st (.nat (e.dflt.headD 0))).getD []

/-- The fresh record built by `SAUCE.sauce()` when no record exists:
b"SAUCE" followed by the packed defaults of the remaining template rows. -/
def sauceBuild : List Nat :=
  (template.drop 1).foldl (fun d e => d ++ packDefault e) [83, 65, 85, 67, 69]

/-- `SAUCE.sauce()`: return the current record when present, otherwise a
fresh default record. -/
def sauceMethod (record : Option (List Nat)) : List Nat :=
  match record with
  | some r => r
  | none => sauceBuild

/-- Result of a `_puts` call: the value of `self.record` after the call
(also after a call that raised) and whether the call succeeded. -/
structure PutsResult where
  record : Option (List Nat)
  ok : Bool
deriving DecidableEq

/-- `SAUCE._puts(key, data)`.  The source first resolves the template row
(raising `ValueError` on an unknown name), then synthesizes a default record
if `self.record is None`, then rebuilds the record as
`record[:offset] + struct.pack(stype, data) + record[offset+size:]`.
Note the synthesized record is assigned to `self.record` before
`struct.pack` runs, so a failing pack leaves that assignment behind. -/
def puts (record : Option (List Nat)) (key : String) (v : FieldVal) : PutsResult :=
  match templateLookup template 0 key with
  | none => ⟨record, false⟩
  | some (e, offset) =>
      let r := record.getD sauceBuild
      match structPack e.stype v with
      | none => ⟨some r, false⟩
      | some packed => ⟨some (r.take offset ++ packed ++ r.drop (offset + e.size)), true⟩

/-- Value returned by `SAUCE._gets`: joined bytes for the `'s'`/`'c'`
formats, a plain integer for `'B'`/`'I'`, and the one-element unpack tuple
for `'H'`. -/
inductive GetResult where
  | bytes (bs : List Nat)
  | nat (n : Nat)
  | tup (ns : List Nat)
deriving DecidableEq

/-- Little-endian value of a byte list (how `struct.unpack` reads `'H'`
and `'I'` fields). -/
def leValue (bs : List Nat) : Nat :=
  bs.foldr (fun b acc => b + 256 * acc) 0

/-- `SAUCE._gets(key)`: `None` when there is no record, otherwise unpack
`record[offset:offset+size]` according to the row's format code. -/
def gets (record : Option (List Nat)) (key : String) : Option GetResult :=
  match record with
  | none => none
  | some r =>
      match templateLookup template 0 key with
      | none => none
      | some (e, offset) =>
          let data := (r.drop offset).take e.size
          match e.stype with
          | .s _ => some (.bytes data)
          | .c _ => some (.bytes data)
          | .B => some (.nat (data.headD 0))
          | .I => some (.nat (leValue data))
          | .H => some (.tup [leValue data])

/-- The bytes Python's `bytes.strip()` removes: ASCII whitespace only
(space, tab, newline, vertical tab, form feed, carriage return).  A null
byte is not whitespace and is not stripped. -/
def isWhitespaceByte (b : Nat) : Bool :=
  b = 32 || b = 9 || b = 10 || b = 11 || b = 12 || b = 13

/-- Python `bytes.strip()` with no argument: drop ASCII whitespace from
both ends. -/
def bstrip (bs : List Nat) : List Nat :=
  (((bs.dropWhile isWhitespaceByte).reverse.dropWhile isWhitespaceByte)).reverse

/-- `SAUCE.get_title`: `_gets('Title')`, then `.strip().decode('latin-1')`.
latin-1 decoding is the identity on byte values, so the result stays a byte
list here. -/
def get_title (record : Option (List Nat)) : Option (List Nat) :=
  match gets record ("Title") with
  | some (.bytes bs) => some (bstrip bs)
  | _ => none

/-- `SAUCE.set_title` for an already latin-1 encoded value. -/
def set_title (record : Option (List Nat)) (title : List Nat) : PutsResult :=
  puts record ("Title") (.bytes title)

/-- `SAUCE.get_author`, same shape as `get_title`. -/
def get_author (record : Option (List Nat)) : Option (List Nat) :=
  match gets record ("Author") with
  | some (.bytes bs) => some (bstrip bs)
  | _ => none

/-- `SAUCE.set_author` for an already latin-1 encoded value. -/
def set_author (record : Option (List Nat)) (author : List Nat) : PutsResult :=
  puts record ("Author") (.bytes author)

/-- `SAUCE.get_group`, same shape as `get_title`. -/
def get_group (record : Option (List Nat)) : Option (List Nat) :=
  match gets record ("Group") with
  | some (.bytes bs) => some (bstrip bs)
  | _ => none

/-- `SAUCE.set_flags` (integer argument). -/
def set_flags (record : Option (List Nat)) (v : Nat) : PutsResult :=
  puts record ("Flags") (.nat v)

/-- `SAUCE.set_comments`. -/
def set_comments (record : Option (List Nat)) (v : Nat) : PutsResult :=
  puts record ("Comments") (.nat v)

/-- `SAUCE.set_datatype` with an integer argument (the string branch is
not taken). -/
def set_datatype (record : Option (List Nat)) (v : Nat) : PutsResult :=
  puts record ("DataType") (.nat v)

/-- `SAUCE.set_filetype` with an integer argument (the string branch is
not taken). -/
def set_filetype (record : Option (List Nat)) (v : Nat) : PutsResult :=
  puts record ("FileType") (.nat v)

/-- `SAUCE.set_filesize`. -/
def set_filesize (record : Option (List Nat)) (v : Nat) : PutsResult :=
  puts record ("FileSize") (.nat v)

/-- `SAUCE.set_tinfo1`. -/
def set_tinfo1 (record : Option (List Nat)) (v : Nat) : PutsResult :=
  puts record ("TInfo1") (.nat v)

/-- `SAUCE.set_tinfo2`. -/
def set_tinfo2 (record : Option (List Nat)) (v : Nat) : PutsResult :=
  puts record ("TInfo2") (.nat v)

/-- `SAUCE.set_tinfo3`. -/
def set_tinfo3 (record : Option (List Nat)) (v : Nat) : PutsResult :=
  puts record ("TInfo3") (.nat v)

/-- `SAUCE.set_tinfo4`. -/
def set_tinfo4 (record : Option (List Nat)) (v : Nat) : PutsResult :=
  puts record ("TInfo4") (.nat v)

/-- `SAUCE.datatypes`. -/
def datatypes : List String :=
  [("None"), ("Character"), ("Graphics"), ("Vector"), ("Sound"),
   ("BinaryText"), ("XBin"), ("Archive"), ("Executable")]

/-- `SAUCE.get_datatype_str` at code level: the name when the code indexes
into `datatypes`, else `None`. -/
def get_datatype_str (datatype : Nat) : Option String :=
  if datatype < datatypes.length then datatypes.getD datatype ("") else none

/-- An element of one of the `'tinfo'` tuples at its innermost level:
Python `None` or a string. -/
inductive TCell where
  | none
  | str (s : String)
deriving DecidableEq

/-- An element of a `'tinfo'` tuple as written in the source: Python
`None`, a plain string, or a nested tuple of cells. -/
inductive TRow where
  | none
  | str (s : String)
  | tup (cells : List TCell)
deriving DecidableEq

/-- `filetypes['Character']['tinfo']`: a tuple of seven 4-tuples. -/
def characterTinfo : List TRow := [
  .tup [.str ("width"), .str ("height"), .none, .none],
  .tup [.str ("width"), .str ("height"), .none, .none],
  .tup [.str ("width"), .str ("height"), .none, .none],
  .tup [.str ("width"), .str ("height"), .str ("colors"), .none],
  .tup [.str ("width"), .str ("height"), .none, .none],
  .tup [.str ("width"), .str ("height"), .none, .none],
  .tup [.none, .none, .none, .none] ]

/-- `filetypes['Graphics']['tinfo']`: the source writes
`(('width', 'height', 'bpp')) * 14`, and the inner parentheses do not nest
a tuple, so this is the flat 42-element tuple that repeats the three
strings 14 times. -/
def graphicsTinfo : List TRow :=
  (List.replicate 14 [TRow.str ("width"), TRow.str ("height"), TRow.str ("bpp")]).flatten

/-- `filetypes['Sound']['tinfo']`: the source writes
`((None,)) * 16 + (('Sampling Rate',)) * 4`; both doubled parentheses are
single-element tuples, so this is the flat 20-element tuple of 16 `None`
followed by the string repeated 4 times. -/
def soundTinfo : List TRow :=
  List.replicate 16 TRow.none ++ List.replicate 4 (TRow.str ("Sampling Rate"))

/-- `filetypes['XBin']['tinfo']`: `(('width', 'height'),)`, a genuinely
nested one-element tuple. -/
def xbinTinfo : List TRow :=
  [.tup [.str ("width"), .str ("height")]]

/-- One value of the `SAUCE.filetypes` dictionary: the optional
`'filetype'`, `'flags'` and `'tinfo'` entries. -/
structure FTEntry where
  filetype : Option (List String) := Option.none
  flags : Option (List (Nat × String)) := Option.none
  tinfo : Option (List TRow) := Option.none
deriving DecidableEq

/-- `SAUCE.filetypes`, key by key; `none` models a datatype name absent
from the dictionary (e.g. `'Executable'`). -/
def filetypes (dt : String) : Option FTEntry :=
  if dt = ("None") then some { filetype := some [("Undefined")] }
  else if dt = ("Character") then some
    { filetype := some [("ASCII"), ("ANSi"), ("ANSiMation"), ("RIP"),
        ("PCBoard"), ("Avatar"), ("HTML"), ("Source")],
      flags := some [(0, ("None")), (1, ("iCE Color"))],
      tinfo := some characterTinfo }
  else if dt = ("Graphics") then some
    { filetype := some [("GIF"), ("PCX"), ("LBM/IFF"), ("TGA"), ("FLI"),
        ("FLC"), ("BMP"), ("GL"), ("DL"), ("WPG"), ("PNG"), ("JPG"),
        ("MPG"), ("AVI")],
      tinfo := some graphicsTinfo }
  else if dt = ("Vector") then some
    { filetype := some [("DX"), ("DWG"), ("WPG"), ("3DS")] }
  else if dt = ("Sound") then some
    { filetype := some [("MOD"), ("669"), ("STM"), ("S3M"), ("MTM"),
        ("FAR"), ("ULT"), ("AMF"), ("DMF"), ("OKT"), ("ROL"), ("CMF"),
        ("MIDI"), ("SADT"), ("VOC"), ("WAV"), ("SMP8"), ("SMP8S"),
        ("SMP16"), ("SMP16S"), ("PATCH8"), ("PATCH16"), ("XM"), ("HSC"),
        ("IT")],
      tinfo := some soundTinfo }
  else if dt = ("BinaryText") then some
    { flags := some [(0, ("None")), (1, ("iCE Color"))] }
  else if dt = ("XBin") then some { tinfo := some xbinTinfo }
  else if dt = ("Archive") then some
    { filetype := some [("ZIP"), ("ARJ"), ("LZH"), ("ARC"), ("TAR"),
        ("ZOO"), ("RAR"), ("UC2"), ("PAK"), ("SQZ")] }
  else none

/-- Exceptions a subscript can raise in `_get_tinfo_name`. -/
inductive PyErr where
  | keyError
  | indexError
  | typeError
deriving DecidableEq

/-- Python subscription `row[i]` for a nonnegative `i` on a `'tinfo'`
element: `None` is not subscriptable (`TypeError`); a string yields its
`i`-th character as a one-character string or `IndexError`; a tuple yields
its `i`-th cell or `IndexError`. -/
def subRow (row : TRow) (i : Nat) : Except PyErr (Option String) :=
  match row with
  | .none => .error .typeError
  | .str s =>
      match s.data.drop i with
      | [] => .error .indexError
      | ch :: _ => .ok (some (String.mk [ch]))
  | .tup cells =>
      match cells.drop i with
      | [] => .error .indexError
      | TCell.none :: _ => .ok Option.none
      | TCell.str t :: _ => .ok (some t)

/-- `SAUCE._get_tinfo_name(i)` at code level, for a present record with the
given datatype and filetype codes.  The `try` block evaluates
`filetypes[datatype]['tinfo'][filetype][i-1]` and catches only `KeyError`
and `IndexError` (returning `''`); a `TypeError` from subscripting `None`
escapes.  `ok none` is Python `None`. -/
def get_tinfo_name_code (datatype filetype i : Nat) : Except PyErr (Option String) :=
  match get_datatype_str datatype with
  | Option.none => .ok Option.none
  | some dts =>
      match filetypes dts with
      | Option.none => .ok (some (""))
      | some entry =>
          match entry.tinfo with
          | Option.none => .ok (some (""))
          | some tbl =>
              match tbl.drop filetype with
              | [] => .ok (some (""))
              | row :: _ =>
                  match subRow row (i - 1) with
                  | .error .typeError => .error .typeError
                  | .error _ => .ok (some (""))
                  | .ok v => .ok v

/-- `SAUCE.get_flags_str` at code level, for a present record with the
given datatype and filetype codes.  The source checks
`datatype in filetypes and 'flags' in filetypes[datatype] and
filetype < len(filetypes[datatype]['filetype'])` and then returns
`filetypes[datatype]['filetype'][filetype]` — it reads the *filetype* name
table, and the length test raises an uncaught `KeyError` (`.error ()`) when
the datatype has `'flags'` but no `'filetype'` list (BinaryText). -/
def get_flags_str_code (datatype filetype : Nat) : Except Unit (Option String) :=
  match get_datatype_str datatype with
  | Option.none => .ok Option.none
  | some dts =>
      match filetypes dts with
      | Option.none => .ok Option.none
      | some entry =>
          match entry.flags with
          | Option.none => .ok Option.none
          | some _ =>
              match entry.filetype with
              | Option.none => .error ()
              | some fts =>
                  if filetype < fts.length then .ok (some (fts.getD filetype ("")))
                  else .ok Option.none

/-- `SAUCE._read()`: when the source holds at least 128 bytes, look at the
final 128 bytes; if they start with b"SAUCE" they are the record and the
body is everything before them, otherwise there is no record and the body
is the whole source. -/
def readDoc (src : List Nat) : Option (List Nat) × List Nat :=
  if 128 ≤ src.length then
    let record := src.drop (src.length - 128)
    if record.take 5 = [83, 65, 85, 67, 69] then
      (some record, src.take (src.length - 128))
    else (none, src)
  else (none, src)

/-- A constructed `SAUCE` object: the underlying file content, the current
`self.record` and the body `self.data` read at construction. -/
structure Doc where
  src : List Nat
  record : Option (List Nat)
  data : List Nat
deriving DecidableEq

/-- Construction from a source whose full byte content is `src`. -/
def mkDoc (src : List Nat) : Doc :=
  ⟨src, (readDoc src).1, (readDoc src).2⟩

/-- `SAUCE.__init__(data=...)` for a raw buffer and no filename: the
`assert (filename or data)` fails (`none`) exactly when the buffer is
empty, since empty bytes are falsy. -/
def initSAUCE (data : List Nat) : Option Doc :=
  if data.length = 0 then none else some (mkDoc data)

/-- The chunk list produced by the loop inside `SAUCE._read_file` for a
given (already divmod-ed) number of full reads and remainder: `reads`
sequential 1024-byte reads from the start of the file, then one read of
`rest` bytes when `rest` is nonzero. -/
def chunksOf (src : List Nat) (reads rest : Nat) : List (List Nat) :=
  ((List.range reads).map fun i => (src.drop (1024 * i)).take 1024) ++
    (if rest ≠ 0 then [(src.drop (1024 * reads)).take rest] else [])

/-- `SAUCE._read_file()`: `divmod(self._size - 128, 1024)` when a record is
present, else `divmod(self._size, 1024)`.  Python's `divmod` on a possibly
negative left operand floors (`Int.fdiv`/`Int.fmod`); a negative quotient
makes `range(0, reads)` empty and the nonnegative remainder is clipped at
the end of the file by `read`. -/
def read_file (src : List Nat) (record : Option (List Nat)) : List (List Nat) :=
  let total : Int := if record.isSome then (src.length : Int) - 128 else (src.length : Int)
  chunksOf src (total.fdiv 1024).toNat (total.fmod 1024).toNat

/-- `SAUCE.__bytes__`: join the `_read_file` chunks. -/
def toBytes (d : Doc) : List Nat :=
  (read_file d.src d.record).flatten

/-- `SAUCE.write(...)`: every `_read_file` chunk in order, then
`self.sauce()` (the written byte sequence, destination aside). -/
def writeOut (d : Doc) : List Nat :=
  toBytes d ++ sauceMethod d.record

/-- The record bytes left in `self.record` by a `_puts` call (empty only
in the unreachable case of a failed call). -/
def setField (record : Option (List Nat)) (key : String) (v : FieldVal) : List Nat :=
  ((puts record key v).record).getD []

/-- Total byte width of a template suffix. -/
def sizeSum : List TEntry → Nat
  | [] => 0
  | e :: es => e.size + sizeSum es

lemma sizeSum_template : sizeSum template = 128 := by decide

lemma template_entry_size : ∀ e ∈ template, stypeSize e.stype = e.size := by decide

lemma templateLookup_spec (ts : List TEntry) :
    ∀ (off0 : Nat) (key : String) (e : TEntry) (off : Nat),
      templateLookup ts off0 key = some (e, off) →
      e ∈ ts ∧ off0 ≤ off ∧ off + e.size ≤ off0 + sizeSum ts := by
  induction ts with
  | nil => intro off0 key e off h; simp [templateLookup] at h
  | cons hd tl ih =>
      intro off0 key e off h
      by_cases hk : hd.name = key
      · simp only [templateLookup, if_pos hk, Option.some.injEq, Prod.mk.injEq] at h
        obtain ⟨he, ho⟩ := h
        subst he; subst ho
        refine ⟨List.mem_cons_self _ _, Nat.le_refl _, ?_⟩
        simp only [sizeSum]
        omega
      · simp only [templateLookup, if_neg hk] at h
        obtain ⟨h1, h2, h3⟩ := ih (off0 + hd.size) key e off h
        refine ⟨List.mem_cons_of_mem _ h1, by omega, ?_⟩
        simp only [sizeSum]
        omega

lemma templateLookup_disjoint (ts : List TEntry) :
    ∀ (off0 : Nat) (a b : String) (ea eb : TEntry) (offa offb : Nat), a ≠ b →
      templateLookup ts off0 a = some (ea, offa) →
      templateLookup ts off0 b = some (eb, offb) →
      offa + ea.size ≤ offb ∨ offb + eb.size ≤ offa := by
  induction ts with
  | nil => intro off0 a b ea eb offa offb hab ha hb; simp [templateLookup] at ha
  | cons hd tl ih =>
      intro off0 a b ea eb offa offb hab ha hb
      by_cases h1 : hd.name = a
      · have h2 : ¬hd.name = b := by rw [h1]; exact hab
        simp only [templateLookup, if_pos h1, Option.some.injEq, Prod.mk.injEq] at ha
        simp only [templateLookup, if_neg h2] at hb
        obtain ⟨hea, hoa⟩ := ha
        have := (templateLookup_spec tl (off0 + hd.size) b eb offb hb).2.1
        left
        rw [← hea, ← hoa]
        omega
      · by_cases h2 : hd.name = b
        · simp only [templateLookup, if_pos h2, Option.some.injEq, Prod.mk.injEq] at hb
          simp only [templateLookup, if_neg h1] at ha
          obtain ⟨heb, hob⟩ := hb
          have := (templateLookup_spec tl (off0 + hd.size) a ea offa ha).2.1
          right
          rw [← heb, ← hob]
          omega
        · simp only [templateLookup, if_neg h1] at ha
          simp only [templateLookup, if_neg h2] at hb
          exact ih (off0 + hd.size) a b ea eb offa offb hab ha hb

lemma structPack_length {st : SType} {v : FieldVal} {p : List Nat}
    (h : structPack st v = some p) : p.length = stypeSize st := by
  cases st with
  | s n =>
      cases v with
      | bytes bs =>
          simp only [structPack, Option.some.injEq] at h
          subst h
          simp [packS, stypeSize, List.length_take]
          omega
      | nat _ => simp [structPack] at h
  | B =>
      cases v with
      | bytes _ => simp [structPack] at h
      | nat m =>
          simp only [structPack] at h
          split at h
          · cases h; simp [stypeSize]
          · cases h
  | H =>
      cases v with
      | bytes _ => simp [structPack] at h
      | nat m =>
          simp only [structPack] at h
          split at h
          · cases h; simp [packLE, stypeSize]
          · cases h
  | I =>
      cases v with
      | bytes _ => simp [structPack] at h
      | nat m =>
          simp only [structPack] at h
          split at h
          · cases h; simp [packLE, stypeSize]
          · cases h
  | c n => cases v <;> simp [structPack] at h

/-- Frame facts about the whole-buffer rebuild done by `_puts`:
the result keeps the length, is unchanged outside `[off, off+size)` and
holds exactly the packed bytes inside it. -/
lemma setFrame (r p : List Nat) (off size : Nat)
    (hr : r.length = 128) (hp : p.length = size) (hbound : off + size ≤ 128) :
    (r.take off ++ p ++ r.drop (off + size)).length = 128 ∧
    (r.take off ++ p ++ r.drop (off + size)).take off = r.take off ∧
    (r.take off ++ p ++ r.drop (off + size)).drop (off + size) = r.drop (off + size) ∧
    ((r.take off ++ p ++ r.drop (off + size)).drop off).take size = p := by
  have htk : (r.take off).length = off := by
    rw [List.length_take]; omega
  have hdp : (r.drop (off + size)).length = 128 - (off + size) := by
    rw [List.length_drop, hr]
  have htp : (r.take off ++ p).length = off + size := by
    rw [List.length_append, htk, hp]
  refine ⟨?_, ?_, ?_, ?_⟩
  · simp only [List.length_append, htk, hp, hdp]
    omega
  · rw [List.append_assoc]
    exact List.take_left' htk
  · exact List.drop_left' htp
  · rw [List.append_assoc, List.drop_left' htk]
    exact List.take_left' hp

lemma chunks_prefix_flatten (src : List Nat) :
    ∀ k : Nat,
      (((List.range k).map fun i => (src.drop (1024 * i)).take 1024)).flatten =
        src.take (1024 * k) := by
  intro k
  induction k with
  | zero => simp
  | succ m ihm =>
      rw [List.range_succ, List.map_append, List.flatten_append, ihm]
      simp only [List.map_cons, List.map_nil, List.flatten_cons, List.flatten_nil,
        List.append_nil]
      rw [← List.take_add]
      congr 1

lemma chunksOf_flatten (src : List Nat) (reads rest : Nat) :
    (chunksOf src reads rest).flatten = src.take (1024 * reads + rest) := by
  unfold chunksOf
  by_cases h : rest = 0
  · simp [h, chunks_prefix_flatten]
  · rw [if_pos h, List.flatten_append, chunks_prefix_flatten]
    simp only [List.flatten_cons, List.flatten_nil, List.append_nil]
    exact (List.take_add src (1024 * reads) rest).symm

lemma fdiv_toNat_cast (m : Nat) : (Int.fdiv (m : Int) (1024 : Int)).toNat = m / 1024 := by
  rw [Int.fdiv_eq_ediv _ (by norm_num)]
  rw [show ((1024 : Int)) = ((1024 : Nat) : Int) by norm_num]
  rw [← Int.natCast_div]
  exact Int.toNat_natCast _

lemma fmod_toNat_cast (m : Nat) : (Int.fmod (m : Int) (1024 : Int)).toNat = m % 1024 := by
  rw [Int.fmod_eq_emod _ (by norm_num)]
  rw [show ((1024 : Int)) = ((1024 : Nat) : Int) by norm_num]
  rw [← Int.natCast_mod]
  exact Int.toNat_natCast _

lemma read_file_flatten_none (src : List Nat) :
    (read_file src Option.none).flatten = src := by
  unfold read_file
  simp only [Option.isSome_none, Bool.false_eq_true, if_false]
  rw [fdiv_toNat_cast, fmod_toNat_cast, chunksOf_flatten, Nat.div_add_mod]
  exact List.take_length src

lemma read_file_flatten_some (src r : List Nat) (h : 128 ≤ src.length) :
    (read_file src (some r)).flatten = src.take (src.length - 128) := by
  unfold read_file
  simp only [Option.isSome_some, if_true]
  rw [show ((src.length : Int) - 128) = ((src.length - 128 : Nat) : Int) by omega]
  rw [fdiv_toNat_cast, fmod_toNat_cast, chunksOf_flatten, Nat.div_add_mod]

/-- The two possible outcomes of `_read`. -/
lemma readDoc_cases (src : List Nat) :
    (readDoc src = (some (src.drop (src.length - 128)), src.take (src.length - 128)) ∧
      128 ≤ src.length ∧
      (src.drop (src.length - 128)).take 5 = [83, 65, 85, 67, 69]) ∨
    (readDoc src = (Option.none, src) ∧
      ¬(128 ≤ src.length ∧
        (src.drop (src.length - 128)).take 5 = [83, 65, 85, 67, 69])) := by
  unfold readDoc
  by_cases h1 : 128 ≤ src.length
  · by_cases h2 : (src.drop (src.length - 128)).take 5 = [83, 65, 85, 67, 69]
    · left; exact ⟨by rw [if_pos h1, if_pos h2], h1, h2⟩
    · right; exact ⟨by rw [if_pos h1, if_neg h2], by tauto⟩
  · right; exact ⟨by rw [if_neg h1], by tauto⟩

lemma sauceBuild_length : sauceBuild.length = 128 := by decide

lemma dropWhile_cons_of_neg {p : Nat → Bool} {a : Nat} {l : List Nat} (h : p a = false) :
    List.dropWhile p (a :: l) = a :: l := by
  simp [List.dropWhile_cons, h]

lemma dropWhile_replicate_space (n : Nat) (l : List Nat) :
    List.dropWhile isWhitespaceByte (List.replicate n 32 ++ l) =
      List.dropWhile isWhitespaceByte l := by
  induction n with
  | zero => simp
  | succ m ihm =>
      rw [List.replicate_succ, List.cons_append, List.dropWhile_cons]
      simp only [show isWhitespaceByte 32 = true from rfl, if_true]
      exact ihm

lemma puts_some_eq (r : List Nat) (key : String) (e : TEntry) (off : Nat)
    (v : FieldVal) (p : List Nat)
    (hk : templateLookup template 0 key = some (e, off))
    (hp : structPack e.stype v = some p) :
    puts (some r) key v = ⟨some (r.take off ++ p ++ r.drop (off + e.size)), true⟩ := by
  unfold puts
  rw [hk]
  simp only [Option.getD_some]
  rw [hp]

lemma puts_ok_eq (record : Option (List Nat)) (key : String) (e : TEntry) (off : Nat)
    (v : FieldVal) (hk : templateLookup template 0 key = some (e, off)) :
    (puts record key v).ok = (structPack e.stype v).isSome := by
  unfold puts
  rw [hk]
  cases hp : structPack e.stype v <;> simp [hp]

lemma packB_isSome (v : Nat) : (structPack .B (.nat v)).isSome = decide (v < 256) := by
  by_cases h : v < 256 <;> simp [structPack, h]

lemma packH_isSome (v : Nat) : (structPack .H (.nat v)).isSome = decide (v < 65536) := by
  by_cases h : v < 65536 <;> simp [structPack, h]

lemma packI_isSome (v : Nat) :
    (structPack .I (.nat v)).isSome = decide (v < 4294967296) := by
  by_cases h : v < 4294967296 <;> simp [structPack, h]

/-! ## Claims -/

/-- C1 (counterexample): the claim says `len(toBytes()) == L + 128` for a
document with body length `L`.  For the one-byte source `[120]` (no record,
body length 1) `toBytes` returns just the body, of length 1, not 129:
`__bytes__` joins the `_read_file` chunks, which deliberately exclude the
record. -/
theorem claim_C1_counterexample :
    (toBytes (mkDoc [120])).length ≠ (mkDoc [120]).data.length + 128 := by
  decide

/-- C1 (amended): `toBytes()` returns exactly the body (`self.data`), so
its length is `L`; the record is appended only by `write`, whose output has
length `L + 128` — also when the source had no record. -/
theorem claim_C1_amended (src : List Nat) :
    toBytes (mkDoc src) = (mkDoc src).data ∧
    (writeOut (mkDoc src)).length = (mkDoc src).data.length + 128 := by
  have hrec : toBytes (mkDoc src) = (mkDoc src).data := by
    unfold toBytes mkDoc
    rcases readDoc_cases src with ⟨h, h1, _⟩ | ⟨h, _⟩
    · rw [h]
      exact read_file_flatten_some src _ h1
    · rw [h]
      exact read_file_flatten_none src
  refine ⟨hrec, ?_⟩
  unfold writeOut
  rw [List.length_append, hrec]
  have hs : (sauceMethod (mkDoc src).record).length = 128 := by
    unfold mkDoc sauceMethod
    rcases readDoc_cases src with ⟨h, h1, _⟩ | ⟨h, _⟩
    · rw [h]
      simp only [List.length_drop]
      omega
    · rw [h]
      exact sauceBuild_length
  omega

/-- C2 (counterexample): the claim says that after setting the title to
"Demo" the decoded title equals exactly "Demo".  In the code,
`set_title` null-pads via `struct.pack('35s', ...)` and `get_title` strips
with `bytes.strip()`, which removes ASCII whitespace but not null bytes,
so the decoded title is "Demo" followed by 31 NUL characters
(`[68,101,109,111]` is b"Demo"). -/
theorem claim_C2_counterexample :
    get_title (set_title (some sauceBuild) [68, 101, 109, 111]).record ≠
      some [68, 101, 109, 111] := by
  decide

/-- C2 (amended): the text getters strip leading and trailing ASCII
whitespace (so space padding is removed) but do not strip null padding:
after setting the title to "Demo" the stored field reads back as "Demo"
plus 31 NULs, while a title stored space-padded reads back as exactly
"Demo".  The last two parts state the strip behaviour for any padding
width. -/
theorem claim_C2_amended :
    (get_title (set_title (some sauceBuild) [68, 101, 109, 111]).record =
      some ([68, 101, 109, 111] ++ List.replicate 31 0)) ∧
    (get_title (set_title (some sauceBuild)
        ([68, 101, 109, 111] ++ List.replicate 31 32)).record =
      some [68, 101, 109, 111]) ∧
    (∀ n : Nat, bstrip ([68, 101, 109, 111] ++ List.replicate n 32) =
      [68, 101, 109, 111]) ∧
    (∀ n : Nat, bstrip ([68, 101, 109, 111] ++ List.replicate n 0) =
      [68, 101, 109, 111] ++ List.replicate n 0) := by
  refine ⟨by decide, by decide, ?_, ?_⟩
  · intro n
    unfold bstrip
    simp only [List.cons_append, List.nil_append]
    rw [dropWhile_cons_of_neg (show isWhitespaceByte 68 = false from rfl)]
    rw [show (68 : Nat) :: 101 :: 109 :: 111 :: List.replicate n 32 =
      [68, 101, 109, 111] ++ List.replicate n 32 from rfl]
    rw [List.reverse_append, List.reverse_replicate, dropWhile_replicate_space]
    decide
  · intro n
    unfold bstrip
    simp only [List.cons_append, List.nil_append]
    rw [dropWhile_cons_of_neg (show isWhitespaceByte 68 = false from rfl)]
    rw [show (68 : Nat) :: 101 :: 109 :: 111 :: List.replicate n 0 =
      [68, 101, 109, 111] ++ List.replicate n 0 from rfl]
    rw [List.reverse_append, List.reverse_replicate]
    cases n with
    | zero => decide
    | succ m =>
        rw [List.replicate_succ, List.cons_append,
          dropWhile_cons_of_neg (show isWhitespaceByte 0 = false from rfl)]
        rw [← List.cons_append, ← List.replicate_succ]
        rw [List.reverse_append, List.reverse_replicate, List.reverse_reverse]

/-- C3 (confirmed): a record is detected iff the source is at least 128
bytes long and its final 128 bytes start with b"SAUCE"; a source of at most
127 bytes never yields a record; on detection the body is the prefix before
the final 128 bytes and the record is those 128 bytes, otherwise the body
is the whole source. -/
theorem claim_C3 (src : List Nat) :
    ((readDoc src).1.isSome ↔
      128 ≤ src.length ∧
        (src.drop (src.length - 128)).take 5 = [83, 65, 85, 67, 69]) ∧
    (src.length ≤ 127 → (readDoc src).1 = Option.none) ∧
    ((readDoc src).1.isSome → (readDoc src).2 = src.take (src.length - 128)) ∧
    ((readDoc src).1 = Option.none → (readDoc src).2 = src) ∧
    (∀ tail, (readDoc src).1 = some tail → tail = src.drop (src.length - 128)) := by
  rcases readDoc_cases src with ⟨h, h1, h2⟩ | ⟨h, hn⟩
  · rw [h]
    refine ⟨by simp [h1, h2], ?_, by simp, by simp, ?_⟩
    · intro hlen
      exact absurd h1 (by omega)
    · intro tail htail
      simp only [Option.some.injEq] at htail
      exact htail.symm
  · rw [h]
    exact ⟨by simpa using hn, by simp, by simp, by simp, by simp⟩

/-- C3 witness: the default record by itself is a 128-byte source whose
final (and only) 128 bytes start with b"SAUCE", so a record is detected
and the body is empty. -/
theorem claim_C3_witness :
    (readDoc sauceBuild).1.isSome ∧
      (readDoc sauceBuild).2 = sauceBuild.take (sauceBuild.length - 128) := by
  have h := claim_C3 sauceBuild
  have h1 : (readDoc sauceBuild).1.isSome := h.1.mpr ⟨by decide, by decide⟩
  exact ⟨h1, h.2.2.1 h1⟩

/-- C4 (counterexample): the claim quantifies over *every* value, but a
numeric setter with an out-of-range value does not return a buffer at all:
`struct.pack('H', 65536)` raises `struct.error`, so `setField` on TInfo1
with 65536 fails instead of returning a new 128-byte buffer. -/
theorem claim_C4_counterexample :
    (puts (some sauceBuild) ("TInfo1") (.nat 65536)).ok = false := by
  decide

/-- C4 (amended): for every 128-byte record, every field name in the
layout and every value the field's pack accepts, `setField` returns a new
128-byte buffer that is bit-identical to the input outside the target
field's byte range; consequently, for two distinct field names the second
set leaves the first field's byte range equal to the packed first value. -/
theorem claim_C4_amended (r : List Nat) (a b : String) (v w : FieldVal)
    (ea eb : TEntry) (offa offb : Nat) (pa pb : List Nat)
    (hr : r.length = 128)
    (ha : templateLookup template 0 a = some (ea, offa))
    (hb : templateLookup template 0 b = some (eb, offb))
    (hpa : structPack ea.stype v = some pa)
    (hpb : structPack eb.stype w = some pb)
    (hab : a ≠ b) :
    (puts (some r) a v).ok = true ∧
    (puts (some r) a v).record = some (setField (some r) a v) ∧
    (setField (some r) a v).length = 128 ∧
    (setField (some r) a v).take offa = r.take offa ∧
    (setField (some r) a v).drop (offa + ea.size) = r.drop (offa + ea.size) ∧
    ((setField (some r) a v).drop offa).take ea.size = pa ∧
    (puts (some (setField (some r) a v)) b w).ok = true ∧
    ((setField (some (setField (some r) a v)) b w).drop offa).take ea.size = pa := by
  have hma := templateLookup_spec template 0 a ea offa ha
  have hmb := templateLookup_spec template 0 b eb offb hb
  have hba : offa + ea.size ≤ 128 := by
    have := hma.2.2
    rw [sizeSum_template] at this
    omega
  have hbb : offb + eb.size ≤ 128 := by
    have := hmb.2.2
    rw [sizeSum_template] at this
    omega
  have hla : pa.length = ea.size := by
    rw [structPack_length hpa]
    exact template_entry_size ea hma.1
  have hlb : pb.length = eb.size := by
    rw [structPack_length hpb]
    exact template_entry_size eb hmb.1
  have heqa := puts_some_eq r a ea offa v pa ha hpa
  have hra : setField (some r) a v = r.take offa ++ pa ++ r.drop (offa + ea.size) := by
    show ((puts (some r) a v).record).getD [] = _
    rw [heqa]
    rfl
  have hfa := setFrame r pa offa ea.size hr hla hba
  rw [← hra] at hfa
  have heqb := puts_some_eq (setField (some r) a v) b eb offb w pb hb hpb
  have hrab : setField (some (setField (some r) a v)) b w =
      (setField (some r) a v).take offb ++ pb ++
        (setField (some r) a v).drop (offb + eb.size) := by
    show ((puts (some (setField (some r) a v)) b w).record).getD [] = _
    rw [heqb]
    rfl
  have hfb := setFrame (setField (some r) a v) pb offb eb.size hfa.1 hlb hbb
  rw [← hrab] at hfb
  refine ⟨by rw [heqa], by rw [heqa, hra], hfa.1, hfa.2.1, hfa.2.2.1, hfa.2.2.2,
    by rw [heqb], ?_⟩
  rcases templateLookup_disjoint template 0 a b ea eb offa offb hab ha hb with hd | hd
  · -- the a-field lies inside the prefix kept by the b-update
    have hseg : ∀ l : List Nat,
        ((l.take offb).drop offa).take ea.size = (l.drop offa).take ea.size := by
      intro l
      rw [List.drop_take, List.take_take]
      congr 1
      omega
    calc ((setField (some (setField (some r) a v)) b w).drop offa).take ea.size
        = (((setField (some (setField (some r) a v)) b w).take offb).drop offa).take
            ea.size := (hseg _).symm
      _ = (((setField (some r) a v).take offb).drop offa).take ea.size := by
            rw [hfb.2.1]
      _ = ((setField (some r) a v).drop offa).take ea.size := hseg _
      _ = pa := hfa.2.2.2
  · -- the a-field lies inside the suffix kept by the b-update
    have hstep : ∀ l : List Nat,
        l.drop offa = (l.drop (offb + eb.size)).drop (offa - (offb + eb.size)) := by
      intro l
      rw [List.drop_drop]
      congr 1
      omega
    calc ((setField (some (setField (some r) a v)) b w).drop offa).take ea.size
        = (((setField (some (setField (some r) a v)) b w).drop
              (offb + eb.size)).drop (offa - (offb + eb.size))).take ea.size := by
            rw [← hstep]
      _ = (((setField (some r) a v).drop (offb + eb.size)).drop
              (offa - (offb + eb.size))).take ea.size := by
            rw [hfb.2.2.1]
      _ = ((setField (some r) a v).drop offa).take ea.size := by
            rw [← hstep]
      _ = pa := hfa.2.2.2

/-- C4 witness: set Title to b"Demo" on the default record, then Author to
b"Tester"; the Title range (offset 7, width 35) still holds the packed
b"Demo". -/
theorem claim_C4_witness :
    (puts (some sauceBuild) ("Title") (.bytes [68, 101, 109, 111])).ok = true ∧
    (puts (some sauceBuild) ("Title") (.bytes [68, 101, 109, 111])).record =
      some (setField (some sauceBuild) ("Title") (.bytes [68, 101, 109, 111])) ∧
    (setField (some sauceBuild) ("Title") (.bytes [68, 101, 109, 111])).length = 128 ∧
    (setField (some sauceBuild) ("Title") (.bytes [68, 101, 109, 111])).take 7 =
      sauceBuild.take 7 ∧
    (setField (some sauceBuild) ("Title") (.bytes [68, 101, 109, 111])).drop (7 + 35) =
      sauceBuild.drop (7 + 35) ∧
    ((setField (some sauceBuild) ("Title") (.bytes [68, 101, 109, 111])).drop 7).take 35 =
      packS 35 [68, 101, 109, 111] ∧
    (puts (some (setField (some sauceBuild) ("Title") (.bytes [68, 101, 109, 111])))
      ("Author") (.bytes [84, 101, 115, 116, 101, 114])).ok = true ∧
    ((setField (some (setField (some sauceBuild) ("Title") (.bytes [68, 101, 109, 111])))
      ("Author") (.bytes [84, 101, 115, 116, 101, 114])).drop 7).take 35 =
      packS 35 [68, 101, 109, 111] :=
  claim_C4_amended sauceBuild ("Title") ("Author")
    (.bytes [68, 101, 109, 111]) (.bytes [84, 101, 115, 116, 101, 114])
    ⟨("Title"), List.replicate 35 0, 35, .s 35⟩
    ⟨("Author"), List.replicate 20 0, 20, .s 20⟩
    7 42 (packS 35 [68, 101, 109, 111]) (packS 20 [84, 101, 115, 116, 101, 114])
    (by decide) rfl rfl rfl rfl (by decide)

/-- C5 (code bug): for a Sound record the claim expects the tinfo label
lookup to return the empty string on tracker formats and "Sampling Rate"
on raw sample formats, never failing.  The source's
`((None,)) * 16 + (('Sampling Rate',)) * 4` builds a *flat* 20-tuple, so
for a tracker filetype code (e.g. 0, MOD) the lookup subscripts `None` and
raises an uncaught `TypeError`, and for a raw sample code (e.g. 16, SMP8)
slot 1 yields the single character "S". -/
theorem claim_C5_code_eval :
    get_tinfo_name_code 4 0 1 = .error .typeError ∧
    get_tinfo_name_code 4 0 4 = .error .typeError ∧
    get_tinfo_name_code 4 15 1 = .error .typeError ∧
    get_tinfo_name_code 4 16 1 = .ok (some ("S")) ∧
    get_tinfo_name_code 4 19 2 = .ok (some ("a")) ∧
    get_tinfo_name_code 4 16 1 ≠ .ok (some ("Sampling Rate")) := by
  decide

/-- C6 (code bug): the claim describes flag-bit name resolution (only
Character and BinaryText define bit 0 as "iCE Color").  The source's
`get_flags_str` instead returns an entry of the *filetype* name table —
for a Character record with filetype 1 it returns "ANSi" whatever the
flags byte holds — and for BinaryText, which has a `'flags'` table but no
`'filetype'` list, it raises an uncaught `KeyError`. -/
theorem claim_C6_code_eval :
    get_flags_str_code 1 1 = .ok (some ("ANSi")) ∧
    get_flags_str_code 1 0 = .ok (some ("ASCII")) ∧
    get_flags_str_code 5 0 = .error () ∧
    get_flags_str_code 1 1 ≠ .ok (some ("iCE Color")) := by
  decide

/-- C7 (code bug): the claim expects Graphics tinfo labels "width",
"height", "bpp" for slots 1-3 on every Graphics filetype.  The source's
`(('width', 'height', 'bpp')) * 14` is a flat 42-tuple of strings, so the
filetype code selects one *string* and the slot subscripts a *character*:
filetype 0 yields "w"/"i"/"d" for slots 1-3 and filetype 1 yields "h" for
slot 1. -/
theorem claim_C7_code_eval :
    get_tinfo_name_code 2 0 1 = .ok (some ("w")) ∧
    get_tinfo_name_code 2 0 2 = .ok (some ("i")) ∧
    get_tinfo_name_code 2 0 3 = .ok (some ("d")) ∧
    get_tinfo_name_code 2 1 1 = .ok (some ("h")) ∧
    get_tinfo_name_code 2 0 1 ≠ .ok (some ("width")) := by
  decide

/-- C8 (counterexample): the claim says out-of-range integers are masked
or truncated by the pack and the setter succeeds.  In fact
`struct.pack('B', 256)` raises `struct.error`, so `set_flags(256)`
fails. -/
theorem claim_C8_counterexample :
    (set_flags (some sauceBuild) 256).ok = false := by
  decide

/-- C8 (amended): the numeric setters perform no range checking of their
own, but the underlying pack *rejects* out-of-range values instead of
masking them: each numeric setter succeeds exactly when the value fits the
field's byte width (`B`: one byte, `H`: two bytes, `I`: four bytes),
independently of the record state. -/
theorem claim_C8_amended (record : Option (List Nat)) (v : Nat) :
    (set_flags record v).ok = decide (v < 256) ∧
    (set_comments record v).ok = decide (v < 256) ∧
    (set_datatype record v).ok = decide (v < 256) ∧
    (set_filetype record v).ok = decide (v < 256) ∧
    (set_filesize record v).ok = decide (v < 4294967296) ∧
    (set_tinfo1 record v).ok = decide (v < 65536) ∧
    (set_tinfo2 record v).ok = decide (v < 65536) ∧
    (set_tinfo3 record v).ok = decide (v < 65536) ∧
    (set_tinfo4 record v).ok = decide (v < 65536) := by
  refine ⟨?_, ?_, ?_, ?_, ?_, ?_, ?_, ?_, ?_⟩
  · rw [show set_flags record v = puts record ("Flags") (.nat v) from rfl,
      puts_ok_eq record ("Flags") ⟨("Flags"), [0], 1, .B⟩ 105 _ rfl]
    exact packB_isSome v
  · rw [show set_comments record v = puts record ("Comments") (.nat v) from rfl,
      puts_ok_eq record ("Comments") ⟨("Comments"), [0], 1, .B⟩ 104 _ rfl]
    exact packB_isSome v
  · rw [show set_datatype record v = puts record ("DataType") (.nat v) from rfl,
      puts_ok_eq record ("DataType") ⟨("DataType"), [0], 1, .B⟩ 94 _ rfl]
    exact packB_isSome v
  · rw [show set_filetype record v = puts record ("FileType") (.nat v) from rfl,
      puts_ok_eq record ("FileType") ⟨("FileType"), [0], 1, .B⟩ 95 _ rfl]
    exact packB_isSome v
  · rw [show set_filesize record v = puts record ("FileSize") (.nat v) from rfl,
      puts_ok_eq record ("FileSize") ⟨("FileSize"), [0], 4, .I⟩ 90 _ rfl]
    exact packI_isSome v
  · rw [show set_tinfo1 record v = puts record ("TInfo1") (.nat v) from rfl,
      puts_ok_eq record ("TInfo1") ⟨("TInfo1"), [0], 2, .H⟩ 96 _ rfl]
    exact packH_isSome v
  · rw [show set_tinfo2 record v = puts record ("TInfo2") (.nat v) from rfl,
      puts_ok_eq record ("TInfo2") ⟨("TInfo2"), [0], 2, .H⟩ 98 _ rfl]
    exact packH_isSome v
  · rw [show set_tinfo3 record v = puts record ("TInfo3") (.nat v) from rfl,
      puts_ok_eq record ("TInfo3") ⟨("TInfo3"), [0], 2, .H⟩ 100 _ rfl]
    exact packH_isSome v
  · rw [show set_tinfo4 record v = puts record ("TInfo4") (.nat v) from rfl,
      puts_ok_eq record ("TInfo4") ⟨("TInfo4"), [0], 2, .H⟩ 102 _ rfl]
    exact packH_isSome v

/-- C9 (counterexample): the claim says a failing setter leaves the prior
record state — including an absent record — untouched.  But `_puts`
assigns the freshly synthesized default record to `self.record` *before*
calling `struct.pack`, so `set_comments(256)` on a record-less document
fails and leaves a newly synthesized record behind. -/
theorem claim_C9_counterexample :
    (puts Option.none ("Comments") (.nat 256)).ok = false ∧
    (puts Option.none ("Comments") (.nat 256)).record ≠ Option.none := by
  decide

/-- C9 (amended): when a record is present, a failing setter leaves it
untouched; an unknown field name fails before any state change; but when
the record is absent and the pack fails, the setter leaves the freshly
synthesized default record behind instead of the prior `None`. -/
theorem claim_C9_amended (r : List Nat) (key : String) (v : FieldVal)
    (e : TEntry) (off : Nat) :
    ((puts (some r) key v).ok = false → (puts (some r) key v).record = some r) ∧
    (templateLookup template 0 key = Option.none →
      (puts Option.none key v).record = Option.none) ∧
    (templateLookup template 0 key = some (e, off) →
      structPack e.stype v = Option.none →
      (puts Option.none key v).ok = false ∧
      (puts Option.none key v).record = some sauceBuild) := by
  refine ⟨?_, ?_, ?_⟩
  · intro hfail
    cases hk : templateLookup template 0 key with
    | none =>
        unfold puts
        rw [hk]
    | some pr =>
        obtain ⟨e', off'⟩ := pr
        cases hp : structPack e'.stype v with
        | none =>
            unfold puts
            rw [hk]
            dsimp only
            rw [hp]
            rfl
        | some p =>
            exfalso
            rw [puts_ok_eq (some r) key e' off' v hk, hp] at hfail
            simp at hfail
  · intro hk
    unfold puts
    rw [hk]
  · intro hk hp
    unfold puts
    rw [hk]
    dsimp only
    rw [hp]
    exact ⟨rfl, rfl⟩

/-- C9 witness: a present default record survives a failing
`set_flags(256)` unchanged, and the same failing set on an absent record
synthesizes the default record. -/
theorem claim_C9_witness :
    (puts Option.none ("Flags") (.nat 256)).ok = false ∧
    (puts Option.none ("Flags") (.nat 256)).record = some sauceBuild :=
  (claim_C9_amended sauceBuild ("Flags") (.nat 256)
    ⟨("Flags"), [0], 1, .B⟩ 105).2.2 rfl (by decide)

/-- C10 (confirmed): constructing a document from a raw buffer with no
filename fails the `assert (filename or data)` exactly when the buffer is
empty (empty bytes are falsy), and succeeds for every non-empty buffer. -/
theorem claim_C10 :
    initSAUCE [] = Option.none ∧
    ∀ d : List Nat, d ≠ [] → (initSAUCE d).isSome := by
  refine ⟨rfl, ?_⟩
  intro d hd
  unfold initSAUCE
  rw [if_neg (by simpa using hd)]
  rfl

/-- C10 witness: the empty buffer is rejected and the two-byte buffer
`[104, 105]` is accepted. -/
theorem claim_C10_witness :
    initSAUCE [] = Option.none ∧ (initSAUCE [104, 105]).isSome :=
  ⟨claim_C10.1, claim_C10.2 [104, 105] (by decide)⟩

end Sauce
